import Mathlib

/-!
# hit-counter: the handler package (`handler/handler.go`)

A shallow embedding of `handler.go`: the package-level icon catalog built by
`init`, and the constructor `NewHandler`.

Everything `NewHandler` calls lives outside the file (the standard library,
third-party modules, and the sibling packages `counter`, `limiter`, `env` and
`internal`).  Those calls are taken as parameters, gathered in the structure
`World`; every call that creates something is also written to a trace, in the
order the source performs it, so that statements about the order of calls and
about the arguments passed can be made.
-/

set_option autoImplicit false

namespace HitCounter

/-! ## Go values -/

/-- A Go `error` value that is not nil.  `leaf` is an error that wraps nothing
(for instance one made by `errors.New`), with an identity and a message;
`wrapError` is the value `fmt.Errorf` builds for a format with one `%w` verb. -/
inductive GoError where
  | leaf (id : Nat) (msg : String)
  | wrapError (msg : String) (err : GoError)
  deriving DecidableEq, Repr

namespace GoError

/-- The method `Error()`. -/
def Error : GoError → String
  | leaf _ msg => msg
  | wrapError msg _ => msg

/-- The method `Unwrap()`, nil for an error that wraps nothing. -/
def Unwrap : GoError → Option GoError
  | leaf _ _ => none
  | wrapError _ err => some err

end GoError

/-- The call `fmt.Errorf(lead + "%w", err)` for a literal text `lead` without
verbs and a non-nil `err`: the message is `lead` followed by `err.Error()` and
the result unwraps to `err`. -/
def Errorf_w (lead : String) (err : GoError) : GoError :=
  GoError.wrapError (lead ++ err.Error) err

/-- The function `errors.Is`: walk the `Unwrap` chain of `err` looking for
`target`. -/
def errorsIs : GoError → GoError → Bool
  | GoError.leaf id msg, target => decide (GoError.leaf id msg = target)
  | GoError.wrapError msg err, target =>
      decide (GoError.wrapError msg err = target) || errorsIs err target

/-- A Go reference: nil, or the identity of an object. -/
abbrev Ref := Option Nat

/-- A pair `(T, error)` as Go functions return it; `err = none` is the nil
error. -/
structure GoRet (α : Type) where
  val : α
  err : Option GoError

/-- A `time.Duration`: a count of nanoseconds. -/
abbrev Duration := Int

def Nanosecond : Duration := 1
def Microsecond : Duration := 1000 * Nanosecond
def Millisecond : Duration := 1000 * Microsecond
def Second : Duration := 1000 * Millisecond
def Minute : Duration := 60 * Second
def Hour : Duration := 60 * Minute

/-! ## Go maps with string keys -/

/-- A Go `map[string]ν`: the entries in some order, no key twice. -/
structure GoMap (ν : Type) where
  entries : List (String × ν)
  nodupKeys : (entries.map Prod.fst).Nodup

namespace GoMap

variable {ν : Type}

/-- The keys of the map. -/
def keys (m : GoMap ν) : List String := m.entries.map Prod.fst

/-- The builtin `len(m)`. -/
def len (m : GoMap ν) : Nat := m.entries.length

/-- The lookup `m[k]`, `none` when the key is absent. -/
def get? (m : GoMap ν) (k : String) : Option ν :=
  (m.entries.find? (fun p => p.1 == k)).map Prod.snd

/-- The entries after the assignment `m[k] = v`: the value of an existing key
is replaced, a new key is added. -/
def setEntries (es : List (String × ν)) (k : String) (v : ν) : List (String × ν) :=
  if k ∈ es.map Prod.fst then
    es.map (fun p => if p.1 = k then (p.1, v) else p)
  else
    es ++ [(k, v)]

/-- The call `make(map[string]ν, n)`: an empty map. -/
def make : GoMap ν := ⟨[], List.nodup_nil⟩

/-- The assignment `m[k] = v`. -/
def set (m : GoMap ν) (k : String) (v : ν) : GoMap ν :=
  ⟨setEntries m.entries k v, by
    have h := m.nodupKeys
    unfold setEntries
    split
    · have hk : (m.entries.map (fun p => if p.1 = k then (p.1, v) else p)).map Prod.fst
          = m.entries.map Prod.fst := by
        rw [List.map_map]
        apply List.map_congr_left
        intro p _
        by_cases hp : p.1 = k <;> simp [hp]
      rw [hk]
      exact h
    · rename_i hk
      rw [List.map_append, List.nodup_append]
      refine ⟨h, by simp, ?_⟩
      intro a ha hb
      simp at hb
      subst hb
      exact hk ha⟩

end GoMap

/-! ## Values of the packages the handler uses

The types of the other packages are kept abstract: a value is a reference,
nil or the identity of an object. -/

/-- The type `counter.Counter`. -/
structure counter.Counter where
  ref : Ref
  deriving DecidableEq, Repr

/-- The type `limiter.Limiter`. -/
structure limiter.Limiter where
  ref : Ref
  deriving DecidableEq, Repr

/-- The type `*cache.Cache`. -/
structure cache.Cache where
  ref : Ref
  deriving DecidableEq, Repr

/-- The type `task.Keeper`. -/
structure task.Keeper where
  ref : Ref
  deriving DecidableEq, Repr

/-- The type `websocket.Breaker`. -/
structure websocket.Breaker where
  ref : Ref
  deriving DecidableEq, Repr

/-- The type `*template.Template`. -/
structure template.Template where
  ref : Ref
  deriving DecidableEq, Repr

/-- The type `badge.Writer`. -/
structure badge.Writer where
  ref : Ref
  deriving DecidableEq, Repr

/-- The type `badge.Icon`, the metadata of one icon. -/
structure badge.Icon where
  ref : Ref
  deriving DecidableEq, Repr

/-- The type `*redis.Client`. -/
structure redis.Client where
  ref : Ref
  deriving DecidableEq, Repr

/-- The fields of `redis.Options` that `NewHandler` fills in. -/
structure redis.Options where
  Addr : String
  Password : String
  DB : Int
  MaxRetries : Int
  MinIdleConns : Int
  PoolSize : Int
  deriving DecidableEq, Repr

/-- A call an error handler makes. -/
inductive SinkCall where
  | SentryError (err : GoError)
  deriving DecidableEq, Repr

/-- A callback `func(err error)`, given by the calls it makes. -/
abbrev ErrorHandler := GoError → List SinkCall

/-- The options of `counter.NewCounter`. -/
inductive counter.Opt where
  | WithRedisClient (client : redis.Client)
  deriving DecidableEq, Repr

/-- The options of `limiter.NewLimiter`. -/
inductive limiter.Opt where
  | WithRedisClient (client : redis.Client)
  deriving DecidableEq, Repr

/-- The options of `task.NewAsyncTask`. -/
inductive task.Opt where
  | WithQueueSizeOption (n : Int)
  | WithWorkerSizeOption (n : Int)
  | WithTimeoutOption (d : Duration)
  | WithErrorHandlerOption (h : ErrorHandler)

/-- The options of `websocket.NewBreaker`. -/
inductive websocket.Opt where
  | WithMaxReadLimit (n : Int)
  | WithMaxMessagePoolLength (n : Int)
  | WithErrorHandlerOption (h : ErrorHandler)

/-- An `int` product on a 64-bit platform. -/
def mulInt (a b : Int) : Int := (a * b + 2 ^ 63) % 2 ^ 64 - 2 ^ 63

/-! ## The package-level variables and `init` -/

/-- The package-level variables `iconsMap` and `iconsList`. -/
structure PkgVars where
  iconsMap : GoMap badge.Icon
  iconsList : List (GoMap String)

/-- The call `fmt.Sprintf("/icon/%s", k)`. -/
def sprintfIcon (k : String) : String := "/icon/" ++ k

/-- The body of the `range` loop of `init` for the key `k`: the slice after
the new map `j` has been appended. -/
def initStep (iconsList : List (GoMap String)) (k : String) : List (GoMap String) :=
  let j : GoMap String := GoMap.make
  let j := j.set "name" k
  let j := j.set "url" (sprintfIcon k)
  iconsList ++ [j]

/-- The function `init`.  `GetIconsMap` is what `badge.GetIconsMap()` returns
and `rangeOrder` is the order in which `range iconsMap` yields the keys. -/
def init (GetIconsMap : GoMap badge.Icon) (rangeOrder : List String) : PkgVars :=
  let iconsMap := GetIconsMap
  let iconsList : List (GoMap String) := []
  let iconsList := rangeOrder.foldl initStep iconsList
  { iconsMap := iconsMap, iconsList := iconsList }

/-- What Go promises of `range` over a map that the loop body does not change:
every key is yielded once, in an order that is not specified. -/
def IsRangeOrder {ν : Type} (m : GoMap ν) (rangeOrder : List String) : Prop :=
  rangeOrder.Perm m.keys

/-! ## `NewHandler` -/

/-- The struct `Handler`. -/
structure Handler where
  Counter : counter.Counter
  Limiter : limiter.Limiter
  LocalCache : cache.Cache
  AsyncTask : task.Keeper
  WebSocketBreaker : websocket.Breaker
  IndexTemplate : template.Template
  Badge : badge.Writer
  Icons : GoMap badge.Icon
  IconsList : List (GoMap String)

/-- What `NewHandler` reads and calls outside the file. -/
structure World where
  /-- The variable `internal.ErrorEmptyParams`. -/
  ErrorEmptyParams : GoError
  /-- The call `runtime.NumCPU()`. -/
  NumCPU : Int
  /-- The call `env.GetPhase()`. -/
  GetPhase : String
  /-- The call `internal.GetRoot()`. -/
  GetRoot : String
  /-- The function `filepath.Join`. -/
  Join : List String → String
  /-- The function `cache.New`. -/
  cacheNew : Duration → Duration → cache.Cache
  /-- The function `redis.NewClient`. -/
  NewClient : redis.Options → redis.Client
  /-- The function `counter.NewCounter`. -/
  NewCounter : List counter.Opt → GoRet counter.Counter
  /-- The function `limiter.NewLimiter`. -/
  NewLimiter : List limiter.Opt → GoRet limiter.Limiter
  /-- The function `task.NewAsyncTask`. -/
  NewAsyncTask : List task.Opt → GoRet task.Keeper
  /-- The function `websocket.NewBreaker`. -/
  NewBreaker : List websocket.Opt → GoRet websocket.Breaker
  /-- The function `template.ParseFiles`. -/
  ParseFiles : List String → GoRet template.Template
  /-- The function `badge.NewWriter`. -/
  NewWriter : GoRet badge.Writer

/-- A call of `NewHandler` that creates something, with its arguments. -/
inductive Event where
  | cacheNew (defaultExpiration cleanupInterval : Duration)
  | NewClient (opt : redis.Options)
  | NewCounter (opts : List counter.Opt)
  | NewLimiter (opts : List limiter.Opt)
  | NewAsyncTask (opts : List task.Opt)
  | NewBreaker (opts : List websocket.Opt)
  | ParseFiles (filenames : List String)
  | NewWriter

/-- What a call of `NewHandler` leaves behind: the two values it returns, the
package-level variables after the call, and the calls it made, in order. -/
structure Ran where
  handler : Option Handler
  err : Option GoError
  pkg : PkgVars
  trace : List Event

/-- The function `NewHandler`, run with the package-level variables `pkg`. -/
def NewHandler (w : World) (pkg : PkgVars) (redisAddr : String) : Ran :=
  if redisAddr = "" then
    ⟨none, some (Errorf_w "[err] NewHandler " w.ErrorEmptyParams), pkg, []⟩
  else
    -- create local cache
    let localCache := w.cacheNew (24 * Hour) (10 * Minute)
    let tr := [Event.cacheNew (24 * Hour) (10 * Minute)]
    -- create redis-client.
    let opt : redis.Options :=
      { Addr := redisAddr
        Password := ""
        DB := 0
        MaxRetries := 1
        MinIdleConns := mulInt w.NumCPU 3
        PoolSize := mulInt w.NumCPU 10 }
    let redisClient := w.NewClient opt
    let tr := tr ++ [Event.NewClient opt]
    -- create counter interface.
    let r := w.NewCounter [counter.Opt.WithRedisClient redisClient]
    let tr := tr ++ [Event.NewCounter [counter.Opt.WithRedisClient redisClient]]
    match r.err with
    | some err => ⟨none, some (Errorf_w "[err] NewHandler " err), pkg, tr⟩
    | none =>
      let ctr := r.val
      -- create limiter interface.
      let r := w.NewLimiter [limiter.Opt.WithRedisClient redisClient]
      let tr := tr ++ [Event.NewLimiter [limiter.Opt.WithRedisClient redisClient]]
      match r.err with
      | some err => ⟨none, some (Errorf_w "[err] NewHandler " err), pkg, tr⟩
      | none =>
        let ltr := r.val
        -- create async task
        let taskOpts : List task.Opt :=
          [ task.Opt.WithQueueSizeOption 1000,
            task.Opt.WithWorkerSizeOption 5,
            task.Opt.WithTimeoutOption (20 * Second),
            task.Opt.WithErrorHandlerOption (fun err => [SinkCall.SentryError err]) ]
        let r := w.NewAsyncTask taskOpts
        let tr := tr ++ [Event.NewAsyncTask taskOpts]
        match r.err with
        | some err => ⟨none, some (Errorf_w "[err] NewHandler " err), pkg, tr⟩
        | none =>
          let asyncTask := r.val
          -- create websocket breaker
          let breakerOpts : List websocket.Opt :=
            [ websocket.Opt.WithMaxReadLimit 1024,
              websocket.Opt.WithMaxMessagePoolLength 500,
              websocket.Opt.WithErrorHandlerOption (fun err => [SinkCall.SentryError err]) ]
          let r := w.NewBreaker breakerOpts
          let tr := tr ++ [Event.NewBreaker breakerOpts]
          match r.err with
          | some err => ⟨none, some (Errorf_w "[err] NewHandler " err), pkg, tr⟩
          | none =>
            let breaker := r.val
            -- template
            let indexName := if w.GetPhase = "local" then "local.html" else "index.html"
            let filenames := [w.Join [w.GetRoot, "view", indexName]]
            let r := w.ParseFiles filenames
            let tr := tr ++ [Event.ParseFiles filenames]
            match r.err with
            | some err => ⟨none, some (Errorf_w "[err] NewHandler " err), pkg, tr⟩
            | none =>
              let indexTemplate := r.val
              -- badge generator
              let r := w.NewWriter
              let tr := tr ++ [Event.NewWriter]
              match r.err with
              | some err => ⟨none, some (Errorf_w "[err] NewHandler " err), pkg, tr⟩
              | none =>
                let badgeWriter := r.val
                ⟨some
                  { LocalCache := localCache
                    Counter := ctr
                    Limiter := ltr
                    AsyncTask := asyncTask
                    WebSocketBreaker := breaker
                    IndexTemplate := indexTemplate
                    Badge := badgeWriter
                    Icons := pkg.iconsMap
                    IconsList := pkg.iconsList },
                  none, pkg, tr⟩

/-! ## Vocabulary of the statements -/

/-- The text every error of `NewHandler` starts with. -/
def errLead : String := "[err] NewHandler "

/-- The constructors of the collaborators. -/
inductive Ctor where
  | counter
  | limiter
  | asyncTask
  | breaker
  | indexTemplate
  | badgeWriter
  deriving DecidableEq, Repr

/-- The order in which the source calls the constructors. -/
def ctorOrder : List Ctor :=
  [Ctor.counter, Ctor.limiter, Ctor.asyncTask, Ctor.breaker, Ctor.indexTemplate,
    Ctor.badgeWriter]

/-- The constructor an event is a call of, if any. -/
def Event.ctor? : Event → Option Ctor
  | Event.cacheNew _ _ => none
  | Event.NewClient _ => none
  | Event.NewCounter _ => some Ctor.counter
  | Event.NewLimiter _ => some Ctor.limiter
  | Event.NewAsyncTask _ => some Ctor.asyncTask
  | Event.NewBreaker _ => some Ctor.breaker
  | Event.ParseFiles _ => some Ctor.indexTemplate
  | Event.NewWriter => some Ctor.badgeWriter

/-- The constructor calls of a trace, in order. -/
def ctorCalls (tr : List Event) : List Ctor := tr.filterMap Event.ctor?

/-- The redis client `NewHandler` hands to the counter and to the limiter. -/
def redisClientOf (w : World) (redisAddr : String) : redis.Client :=
  w.NewClient
    { Addr := redisAddr, Password := "", DB := 0, MaxRetries := 1,
      MinIdleConns := mulInt w.NumCPU 3, PoolSize := mulInt w.NumCPU 10 }

/-- The options `NewHandler` passes to `task.NewAsyncTask`. -/
def asyncTaskOpts : List task.Opt :=
  [task.Opt.WithQueueSizeOption 1000, task.Opt.WithWorkerSizeOption 5,
    task.Opt.WithTimeoutOption 20000000000,
    task.Opt.WithErrorHandlerOption (fun err => [SinkCall.SentryError err])]

/-- The options `NewHandler` passes to `websocket.NewBreaker`. -/
def breakerOpts : List websocket.Opt :=
  [websocket.Opt.WithMaxReadLimit 1024, websocket.Opt.WithMaxMessagePoolLength 500,
    websocket.Opt.WithErrorHandlerOption (fun err => [SinkCall.SentryError err])]

/-- The file `NewHandler` parses the index template from. -/
def indexFile (w : World) : String :=
  w.Join [w.GetRoot, "view", if w.GetPhase = "local" then "local.html" else "index.html"]

/-- The error a constructor returns when it is called with the arguments
`NewHandler` passes to it for the address `redisAddr`; `none` is nil. -/
def ctorErr (w : World) (redisAddr : String) : Ctor → Option GoError
  | Ctor.counter =>
      (w.NewCounter [counter.Opt.WithRedisClient (redisClientOf w redisAddr)]).err
  | Ctor.limiter =>
      (w.NewLimiter [limiter.Opt.WithRedisClient (redisClientOf w redisAddr)]).err
  | Ctor.asyncTask => (w.NewAsyncTask asyncTaskOpts).err
  | Ctor.breaker => (w.NewBreaker breakerOpts).err
  | Ctor.indexTemplate => (w.ParseFiles [indexFile w]).err
  | Ctor.badgeWriter => w.NewWriter.err

/-- The calls of a run of `NewHandler` in which no constructor fails. -/
def fullTrace (w : World) (redisAddr : String) : List Event :=
  [Event.cacheNew 86400000000000 600000000000,
    Event.NewClient
      { Addr := redisAddr, Password := "", DB := 0, MaxRetries := 1,
        MinIdleConns := mulInt w.NumCPU 3, PoolSize := mulInt w.NumCPU 10 },
    Event.NewCounter [counter.Opt.WithRedisClient (redisClientOf w redisAddr)],
    Event.NewLimiter [limiter.Opt.WithRedisClient (redisClientOf w redisAddr)],
    Event.NewAsyncTask asyncTaskOpts,
    Event.NewBreaker breakerOpts,
    Event.ParseFiles [indexFile w],
    Event.NewWriter]

/-- The handler made of what the constructors return. -/
def fullHandler (w : World) (pkg : PkgVars) (redisAddr : String) : Handler :=
  { Counter := (w.NewCounter [counter.Opt.WithRedisClient (redisClientOf w redisAddr)]).val
    Limiter := (w.NewLimiter [limiter.Opt.WithRedisClient (redisClientOf w redisAddr)]).val
    LocalCache := w.cacheNew 86400000000000 600000000000
    AsyncTask := (w.NewAsyncTask asyncTaskOpts).val
    WebSocketBreaker := (w.NewBreaker breakerOpts).val
    IndexTemplate := (w.ParseFiles [indexFile w]).val
    Badge := w.NewWriter.val
    Icons := pkg.iconsMap
    IconsList := pkg.iconsList }

/-- The name an element of the listing gives, if it has the key "name". -/
def nameOf (j : GoMap String) : Option String := j.get? "name"

/-- Successive calls of `NewHandler`, one per element of `calls` (the world of
the call and its argument), each run with the package-level variables the
call before it left.  The result lists the runs. -/
def callsFrom (pkg : PkgVars) : List (World × String) → List Ran
  | [] => []
  | (w, redisAddr) :: calls =>
      let r := NewHandler w pkg redisAddr
      r :: callsFrom r.pkg calls

/-! ## Worlds to evaluate on -/

/-- A world in which every constructor succeeds, but for the constructor
`failing`, if any, which returns the error `leaf 7 "down"`. -/
def sampleWorld (failing : Option Ctor) : World :=
  let e : Ctor → Option GoError :=
    fun c => if failing = some c then some (GoError.leaf 7 "down") else none
  { ErrorEmptyParams := GoError.leaf 0 "empty params"
    NumCPU := 4
    GetPhase := "local"
    GetRoot := "/srv"
    Join := fun xs => "/".intercalate xs
    cacheNew := fun _ _ => ⟨some 1⟩
    NewClient := fun _ => ⟨some 2⟩
    NewCounter := fun _ => ⟨⟨some 3⟩, e Ctor.counter⟩
    NewLimiter := fun _ => ⟨⟨some 4⟩, e Ctor.limiter⟩
    NewAsyncTask := fun _ => ⟨⟨some 5⟩, e Ctor.asyncTask⟩
    NewBreaker := fun _ => ⟨⟨some 6⟩, e Ctor.breaker⟩
    ParseFiles := fun _ => ⟨⟨some 7⟩, e Ctor.indexTemplate⟩
    NewWriter := ⟨⟨some 8⟩, e Ctor.badgeWriter⟩ }

/-- A catalog of two icons. -/
def sampleCatalog : GoMap badge.Icon :=
  ⟨[("github", ⟨some 10⟩), ("twitter", ⟨some 11⟩)], by decide⟩

/-- The package-level variables after `init` on the sample catalog. -/
def samplePkg : PkgVars := init sampleCatalog ["twitter", "github"]

/-! ## Theorems -/

/-- The runs of `NewHandler` with a non-empty address: either some constructor
is the first of the order to fail, and the run stops there, or none fails. -/
theorem NewHandler_run (w : World) (pkg : PkgVars) (redisAddr : String)
    (h : redisAddr ≠ "") :
    (∃ before c after e, ctorOrder = before ++ c :: after ∧
        (∀ d ∈ before, ctorErr w redisAddr d = none) ∧ ctorErr w redisAddr c = some e ∧
        NewHandler w pkg redisAddr
          = ⟨none, some (Errorf_w errLead e), pkg,
              (fullTrace w redisAddr).take (before.length + 3)⟩ ∧
        ctorCalls ((fullTrace w redisAddr).take (before.length + 3)) = before ++ [c]) ∨
    ((∀ d, ctorErr w redisAddr d = none) ∧
        NewHandler w pkg redisAddr
          = ⟨some (fullHandler w pkg redisAddr), none, pkg, fullTrace w redisAddr⟩) := by
  cases h1 : ctorErr w redisAddr Ctor.counter with
  | some e =>
    refine Or.inl ⟨[], Ctor.counter,
      [Ctor.limiter, Ctor.asyncTask, Ctor.breaker, Ctor.indexTemplate, Ctor.badgeWriter], e, rfl, ?_, h1, ?_, ?_⟩
    · simp
    · simp only [ctorErr, redisClientOf, asyncTaskOpts, breakerOpts, indexFile] at h1
      simp [NewHandler, h, fullTrace, fullHandler, redisClientOf, asyncTaskOpts, breakerOpts,
        indexFile, h1, errLead, Hour, Minute, Second, Millisecond, Microsecond,
        Nanosecond]
    · simp [fullTrace, ctorCalls, Event.ctor?]
  | none =>
    cases h2 : ctorErr w redisAddr Ctor.limiter with
    | some e =>
      refine Or.inl ⟨[Ctor.counter], Ctor.limiter,
        [Ctor.asyncTask, Ctor.breaker, Ctor.indexTemplate, Ctor.badgeWriter], e, rfl, ?_, h2, ?_, ?_⟩
      · simp [h1]
      · simp only [ctorErr, redisClientOf, asyncTaskOpts, breakerOpts, indexFile] at h1 h2
        simp [NewHandler, h, fullTrace, fullHandler, redisClientOf, asyncTaskOpts, breakerOpts,
          indexFile, h1, h2, errLead, Hour, Minute, Second, Millisecond, Microsecond,
          Nanosecond]
      · simp [fullTrace, ctorCalls, Event.ctor?]
    | none =>
      cases h3 : ctorErr w redisAddr Ctor.asyncTask with
      | some e =>
        refine Or.inl ⟨[Ctor.counter, Ctor.limiter], Ctor.asyncTask,
          [Ctor.breaker, Ctor.indexTemplate, Ctor.badgeWriter], e, rfl, ?_, h3, ?_, ?_⟩
        · simp [h1, h2]
        · simp only [ctorErr, redisClientOf, asyncTaskOpts, breakerOpts, indexFile] at h1 h2 h3
          simp [NewHandler, h, fullTrace, fullHandler, redisClientOf, asyncTaskOpts, breakerOpts,
            indexFile, h1, h2, h3, errLead, Hour, Minute, Second, Millisecond, Microsecond,
            Nanosecond]
        · simp [fullTrace, ctorCalls, Event.ctor?]
      | none =>
        cases h4 : ctorErr w redisAddr Ctor.breaker with
        | some e =>
          refine Or.inl ⟨[Ctor.counter, Ctor.limiter, Ctor.asyncTask], Ctor.breaker,
            [Ctor.indexTemplate, Ctor.badgeWriter], e, rfl, ?_, h4, ?_, ?_⟩
          · simp [h1, h2, h3]
          · simp only [ctorErr, redisClientOf, asyncTaskOpts, breakerOpts, indexFile] at h1 h2 h3 h4
            simp [NewHandler, h, fullTrace, fullHandler, redisClientOf, asyncTaskOpts, breakerOpts,
              indexFile, h1, h2, h3, h4, errLead, Hour, Minute, Second, Millisecond, Microsecond,
              Nanosecond]
          · simp [fullTrace, ctorCalls, Event.ctor?]
        | none =>
          cases h5 : ctorErr w redisAddr Ctor.indexTemplate with
          | some e =>
            refine Or.inl ⟨[Ctor.counter, Ctor.limiter, Ctor.asyncTask, Ctor.breaker], Ctor.indexTemplate,
              [Ctor.badgeWriter], e, rfl, ?_, h5, ?_, ?_⟩
            · simp [h1, h2, h3, h4]
            · simp only [ctorErr, redisClientOf, asyncTaskOpts, breakerOpts, indexFile] at h1 h2 h3 h4 h5
              simp [NewHandler, h, fullTrace, fullHandler, redisClientOf, asyncTaskOpts, breakerOpts,
                indexFile, h1, h2, h3, h4, h5, errLead, Hour, Minute, Second, Millisecond, Microsecond,
                Nanosecond]
            · simp [fullTrace, ctorCalls, Event.ctor?]
          | none =>
            cases h6 : ctorErr w redisAddr Ctor.badgeWriter with
            | some e =>
              refine Or.inl ⟨[Ctor.counter, Ctor.limiter, Ctor.asyncTask, Ctor.breaker, Ctor.indexTemplate], Ctor.badgeWriter,
                [], e, rfl, ?_, h6, ?_, ?_⟩
              · simp [h1, h2, h3, h4, h5]
              · simp only [ctorErr, redisClientOf, asyncTaskOpts, breakerOpts, indexFile] at h1 h2 h3 h4 h5 h6
                simp [NewHandler, h, fullTrace, fullHandler, redisClientOf, asyncTaskOpts, breakerOpts,
                  indexFile, h1, h2, h3, h4, h5, h6, errLead, Hour, Minute, Second, Millisecond, Microsecond,
                  Nanosecond]
              · simp [fullTrace, ctorCalls, Event.ctor?]
            | none =>
              refine Or.inr ⟨?_, ?_⟩
              · intro d
                cases d <;> assumption
              · simp only [ctorErr, redisClientOf, asyncTaskOpts, breakerOpts, indexFile] at h1 h2 h3 h4 h5 h6
                simp [NewHandler, h, fullTrace, fullHandler, redisClientOf, asyncTaskOpts, breakerOpts,
                  indexFile, h1, h2, h3, h4, h5, h6, errLead, Hour, Minute, Second, Millisecond, Microsecond,
                  Nanosecond]

theorem errorsIs_self (e : GoError) : errorsIs e e = true := by
  cases e <;> simp [errorsIs]

theorem NewHandler_empty (w : World) (pkg : PkgVars) :
    NewHandler w pkg "" = ⟨none, some (Errorf_w errLead w.ErrorEmptyParams), pkg, []⟩ := by
  simp [NewHandler, errLead]

/-- C1: `NewHandler` fails fast.  If `redisAddr` is empty, or a constructor of
a collaborator returns an error for the arguments `NewHandler` passes, the
handler returned is nil and the error returned is not nil; and in no run are
the handler and the error both non-nil. -/
theorem NewHandler_fails_fast (w : World) (pkg : PkgVars) (redisAddr : String) :
    ((redisAddr = "" ∨ ∃ c, ctorErr w redisAddr c ≠ none) →
      (NewHandler w pkg redisAddr).handler = none ∧
      (NewHandler w pkg redisAddr).err ≠ none) ∧
    ¬((NewHandler w pkg redisAddr).handler ≠ none ∧
      (NewHandler w pkg redisAddr).err ≠ none) := by
  by_cases h : redisAddr = ""
  · subst h
    simp [NewHandler_empty]
  · rcases NewHandler_run w pkg redisAddr h with
      ⟨before, c, after, e, _, _, _, hr, _⟩ | ⟨hall, hr⟩
    · simp [hr]
    · rw [hr]
      refine ⟨?_, by simp⟩
      rintro (h0 | ⟨c, hc⟩)
      · exact absurd h0 h
      · exact absurd (hall c) hc

/-- A run for C1: the limiter cannot be constructed. -/
theorem NewHandler_fails_fast_witness :
    ("localhost:6379" = "" ∨
        ∃ c, ctorErr (sampleWorld (some Ctor.limiter)) "localhost:6379" c ≠ none) ∧
      (NewHandler (sampleWorld (some Ctor.limiter)) samplePkg "localhost:6379").handler = none ∧
      (NewHandler (sampleWorld (some Ctor.limiter)) samplePkg "localhost:6379").err ≠ none :=
  ⟨Or.inr ⟨Ctor.limiter, by decide⟩,
    (NewHandler_fails_fast (sampleWorld (some Ctor.limiter)) samplePkg "localhost:6379").1
      (Or.inr ⟨Ctor.limiter, by decide⟩)⟩

/-- C2: no component is left without its value.  `NewHandler` returns a nil
error exactly when `redisAddr` is not empty and every constructor succeeds, and
then the handler returned is not nil and each of its nine fields holds what the
source assigns: the six values the constructors returned, the cache just
created, and the package-level `iconsMap` and `iconsList`. -/
theorem NewHandler_fully_initialized (w : World) (pkg : PkgVars) (redisAddr : String) :
    ((NewHandler w pkg redisAddr).err = none ↔
      (redisAddr ≠ "" ∧ ∀ c, ctorErr w redisAddr c = none)) ∧
    ((NewHandler w pkg redisAddr).err = none →
      ∃ hd, (NewHandler w pkg redisAddr).handler = some hd ∧
        hd.Counter
          = (w.NewCounter [counter.Opt.WithRedisClient (redisClientOf w redisAddr)]).val ∧
        hd.Limiter
          = (w.NewLimiter [limiter.Opt.WithRedisClient (redisClientOf w redisAddr)]).val ∧
        hd.LocalCache = w.cacheNew 86400000000000 600000000000 ∧
        hd.AsyncTask = (w.NewAsyncTask asyncTaskOpts).val ∧
        hd.WebSocketBreaker = (w.NewBreaker breakerOpts).val ∧
        hd.IndexTemplate = (w.ParseFiles [indexFile w]).val ∧
        hd.Badge = w.NewWriter.val ∧
        hd.Icons = pkg.iconsMap ∧
        hd.IconsList = pkg.iconsList) := by
  by_cases h : redisAddr = ""
  · subst h
    simp [NewHandler_empty]
  · rcases NewHandler_run w pkg redisAddr h with
      ⟨before, c, after, e, _, _, hc, hr, _⟩ | ⟨hall, hr⟩
    · rw [hr]
      refine ⟨⟨by simp, ?_⟩, by simp⟩
      rintro ⟨_, hall⟩
      rw [hall c] at hc
      exact absurd hc (by simp)
    · rw [hr]
      exact ⟨⟨fun _ => ⟨h, hall⟩, fun _ => rfl⟩,
        fun _ => ⟨fullHandler w pkg redisAddr, rfl, rfl, rfl, rfl, rfl, rfl, rfl, rfl, rfl, rfl⟩⟩

/-- A run for C2: every constructor succeeds. -/
theorem NewHandler_fully_initialized_witness :
    (NewHandler (sampleWorld none) samplePkg "localhost:6379").err = none ∧
    ∃ hd, (NewHandler (sampleWorld none) samplePkg "localhost:6379").handler = some hd ∧
      hd.Counter = ⟨some 3⟩ ∧ hd.Limiter = ⟨some 4⟩ ∧ hd.LocalCache = ⟨some 1⟩ ∧
      hd.AsyncTask = ⟨some 5⟩ ∧ hd.WebSocketBreaker = ⟨some 6⟩ ∧
      hd.IndexTemplate = ⟨some 7⟩ ∧ hd.Badge = ⟨some 8⟩ ∧
      hd.Icons = samplePkg.iconsMap ∧ hd.IconsList = samplePkg.iconsList :=
  have h0 : (NewHandler (sampleWorld none) samplePkg "localhost:6379").err = none :=
    ((NewHandler_fully_initialized (sampleWorld none) samplePkg "localhost:6379").1).2
      ⟨by decide, fun c => by cases c <;> rfl⟩
  ⟨h0, (NewHandler_fully_initialized (sampleWorld none) samplePkg "localhost:6379").2 h0⟩

/-- C9: the parameter check comes first.  Called with the empty string,
`NewHandler` returns a nil handler and an error that wraps
`internal.ErrorEmptyParams` (`errors.Is` holds, `Unwrap` gives it back) whose
message is "[err] NewHandler " followed by the message of that error, and it
has created nothing: its trace is empty.  Called with a non-empty string, the
run went past the check (its trace starts with the creation of the local
cache), and an error it returns is the wrapping of the error that a constructor
it called returned. -/
theorem NewHandler_param_check (w : World) (pkg : PkgVars) :
    ((NewHandler w pkg "").handler = none ∧
      (∃ err, (NewHandler w pkg "").err = some err ∧
        errorsIs err w.ErrorEmptyParams = true ∧
        err.Unwrap = some w.ErrorEmptyParams ∧
        err.Error = "[err] NewHandler " ++ w.ErrorEmptyParams.Error) ∧
      (NewHandler w pkg "").trace = []) ∧
    (∀ redisAddr, redisAddr ≠ "" →
      (∃ ttl sweep rest,
        (NewHandler w pkg redisAddr).trace = Event.cacheNew ttl sweep :: rest) ∧
      (∀ err, (NewHandler w pkg redisAddr).err = some err →
        ∃ c e, c ∈ ctorCalls (NewHandler w pkg redisAddr).trace ∧
          ctorErr w redisAddr c = some e ∧
          err.Unwrap = some e ∧ err.Error = "[err] NewHandler " ++ e.Error)) := by
  refine ⟨?_, ?_⟩
  · rw [NewHandler_empty]
    refine ⟨rfl, ⟨_, rfl, ?_, rfl, rfl⟩, rfl⟩
    simp [Errorf_w, errorsIs, errorsIs_self]
  · intro redisAddr h
    rcases NewHandler_run w pkg redisAddr h with
      ⟨before, c, after, e, _, _, hc, hr, hcalls⟩ | ⟨hall, hr⟩
    · rw [hr]
      refine ⟨⟨_, _, _, rfl⟩, ?_⟩
      intro err herr
      simp only [Option.some.injEq] at herr
      subst herr
      exact ⟨c, e, by simp [hcalls], hc, rfl, rfl⟩
    · rw [hr]
      exact ⟨⟨_, _, _, rfl⟩, fun err herr => by simp at herr⟩

/-- A run for C9: a non-empty address and a counter that cannot be
constructed. -/
theorem NewHandler_param_check_witness :
    "localhost:6379" ≠ "" ∧
    (NewHandler (sampleWorld (some Ctor.counter)) samplePkg "localhost:6379").err
      = some (GoError.wrapError "[err] NewHandler down" (GoError.leaf 7 "down")) ∧
    ∃ c e,
      c ∈ ctorCalls
        (NewHandler (sampleWorld (some Ctor.counter)) samplePkg "localhost:6379").trace ∧
      ctorErr (sampleWorld (some Ctor.counter)) "localhost:6379" c = some e ∧
      (GoError.wrapError "[err] NewHandler down" (GoError.leaf 7 "down")).Unwrap = some e ∧
      (GoError.wrapError "[err] NewHandler down" (GoError.leaf 7 "down")).Error
        = "[err] NewHandler " ++ e.Error :=
  have h0 : (NewHandler (sampleWorld (some Ctor.counter)) samplePkg "localhost:6379").err
      = some (GoError.wrapError "[err] NewHandler down" (GoError.leaf 7 "down")) := by
    decide
  ⟨by decide, h0,
    ((NewHandler_param_check (sampleWorld (some Ctor.counter)) samplePkg).2
      "localhost:6379" (by decide)).2 _ h0⟩

/-- C10: the constructors are called in the order counter, limiter, async
task, websocket breaker, index template, badge writer, up to the first that
fails.  For a non-empty `redisAddr`, either some constructor `c` of the order
returns an error `e` while all before it succeed, and then the constructor
calls of the run are those before `c` followed by `c` (none after `c` is
called), the handler is nil and the error returned wraps `e` with the message
"[err] NewHandler " followed by the message of `e`; or every constructor
succeeds, all six are called in the order, and the error returned is nil. -/
theorem NewHandler_ctor_order (w : World) (pkg : PkgVars) (redisAddr : String)
    (h : redisAddr ≠ "") :
    (∃ before c after e, ctorOrder = before ++ c :: after ∧
        (∀ d ∈ before, ctorErr w redisAddr d = none) ∧
        ctorErr w redisAddr c = some e ∧
        ctorCalls (NewHandler w pkg redisAddr).trace = before ++ [c] ∧
        (NewHandler w pkg redisAddr).handler = none ∧
        ∃ err, (NewHandler w pkg redisAddr).err = some err ∧
          err.Unwrap = some e ∧ err.Error = "[err] NewHandler " ++ e.Error) ∨
    ((∀ d, ctorErr w redisAddr d = none) ∧
        ctorCalls (NewHandler w pkg redisAddr).trace = ctorOrder ∧
        (NewHandler w pkg redisAddr).err = none) := by
  rcases NewHandler_run w pkg redisAddr h with
    ⟨before, c, after, e, hord, hbefore, hc, hr, hcalls⟩ | ⟨hall, hr⟩
  · left
    rw [hr]
    exact ⟨before, c, after, e, hord, hbefore, hc, hcalls, rfl, _, rfl, rfl, rfl⟩
  · right
    rw [hr]
    exact ⟨hall, by simp [fullTrace, ctorCalls, Event.ctor?, ctorOrder], rfl⟩

/-- A run for C10: the async task is the first constructor to fail; the
breaker, the template and the badge writer are not called. -/
theorem NewHandler_ctor_order_witness :
    "localhost:6379" ≠ "" ∧
    ctorCalls (NewHandler (sampleWorld (some Ctor.asyncTask)) samplePkg "localhost:6379").trace
      = [Ctor.counter, Ctor.limiter, Ctor.asyncTask] ∧
    ((∃ before c after e, ctorOrder = before ++ c :: after ∧
        (∀ d ∈ before, ctorErr (sampleWorld (some Ctor.asyncTask)) "localhost:6379" d = none) ∧
        ctorErr (sampleWorld (some Ctor.asyncTask)) "localhost:6379" c = some e ∧
        ctorCalls
            (NewHandler (sampleWorld (some Ctor.asyncTask)) samplePkg "localhost:6379").trace
          = before ++ [c] ∧
        (NewHandler (sampleWorld (some Ctor.asyncTask)) samplePkg "localhost:6379").handler
          = none ∧
        ∃ err,
          (NewHandler (sampleWorld (some Ctor.asyncTask)) samplePkg "localhost:6379").err
            = some err ∧
          err.Unwrap = some e ∧ err.Error = "[err] NewHandler " ++ e.Error) ∨
    ((∀ d, ctorErr (sampleWorld (some Ctor.asyncTask)) "localhost:6379" d = none) ∧
        ctorCalls
            (NewHandler (sampleWorld (some Ctor.asyncTask)) samplePkg "localhost:6379").trace
          = ctorOrder ∧
        (NewHandler (sampleWorld (some Ctor.asyncTask)) samplePkg "localhost:6379").err
          = none)) :=
  ⟨by decide, by decide,
    NewHandler_ctor_order (sampleWorld (some Ctor.asyncTask)) samplePkg "localhost:6379"
      (by decide)⟩

/-- One call of `NewHandler` leaves the package-level variables as they were,
and a handler it returns holds them. -/
theorem NewHandler_frame (w : World) (pkg : PkgVars) (redisAddr : String) :
    (NewHandler w pkg redisAddr).pkg = pkg ∧
    ∀ hd, (NewHandler w pkg redisAddr).handler = some hd →
      hd.Icons = pkg.iconsMap ∧ hd.IconsList = pkg.iconsList := by
  by_cases h : redisAddr = ""
  · subst h
    simp [NewHandler_empty]
  · rcases NewHandler_run w pkg redisAddr h with
      ⟨before, c, after, e, _, _, _, hr, _⟩ | ⟨_, hr⟩
    · simp [hr]
    · rw [hr]
      refine ⟨rfl, ?_⟩
      intro hd hhd
      simp only [Option.some.injEq] at hhd
      subst hhd
      exact ⟨rfl, rfl⟩

/-- Any number of calls of `NewHandler` leave the package-level variables as
they were, and every handler returned holds them. -/
theorem callsFrom_frame (pkg : PkgVars) (calls : List (World × String)) :
    ∀ r ∈ callsFrom pkg calls, r.pkg = pkg ∧
      ∀ hd, r.handler = some hd → hd.Icons = pkg.iconsMap ∧ hd.IconsList = pkg.iconsList := by
  induction calls with
  | nil => intro r hr; simp [callsFrom] at hr
  | cons call calls ih =>
    obtain ⟨w, redisAddr⟩ := call
    intro r hr
    simp only [callsFrom, List.mem_cons] at hr
    rcases hr with hr | hr
    · subst hr
      exact NewHandler_frame w pkg redisAddr
    · rw [(NewHandler_frame w pkg redisAddr).1] at hr
      exact ih r hr

/-- C5: the icon catalog is not changed after `init` has built it.  Whatever
`badge.GetIconsMap` returned, in whatever order `init` ranged over it, and
whatever calls of `NewHandler` follow (any number, any argument, any outcome of
the constructors), each call leaves the package-level `iconsMap` and
`iconsList` as `init` left them, `iconsMap` still being the catalog, and every
handler returned has that same catalog and listing in `Icons` and
`IconsList`. -/
theorem icon_catalog_never_mutated (GetIconsMap : GoMap badge.Icon)
    (rangeOrder : List String) (calls : List (World × String)) :
    ∀ r ∈ callsFrom (init GetIconsMap rangeOrder) calls,
      r.pkg = init GetIconsMap rangeOrder ∧
      r.pkg.iconsMap = GetIconsMap ∧
      ∀ hd, r.handler = some hd →
        hd.Icons = (init GetIconsMap rangeOrder).iconsMap ∧
        hd.IconsList = (init GetIconsMap rangeOrder).iconsList := by
  intro r hr
  have h := callsFrom_frame (init GetIconsMap rangeOrder) calls r hr
  refine ⟨h.1, ?_, h.2⟩
  rw [h.1]
  rfl

/-- A run for C5: a failing call, then a call with the empty address, then a
successful call; the statement is about the third. -/
theorem icon_catalog_never_mutated_witness :
    (NewHandler (sampleWorld none) samplePkg "localhost:6379").handler.isSome = true ∧
    ((NewHandler (sampleWorld none) samplePkg "localhost:6379").pkg
        = init sampleCatalog ["twitter", "github"] ∧
      (NewHandler (sampleWorld none) samplePkg "localhost:6379").pkg.iconsMap
        = sampleCatalog ∧
      ∀ hd, (NewHandler (sampleWorld none) samplePkg "localhost:6379").handler = some hd →
        hd.Icons = (init sampleCatalog ["twitter", "github"]).iconsMap ∧
        hd.IconsList = (init sampleCatalog ["twitter", "github"]).iconsList) :=
  ⟨by decide,
    icon_catalog_never_mutated sampleCatalog ["twitter", "github"]
      [(sampleWorld (some Ctor.breaker), "localhost:6379"), (sampleWorld none, ""),
        (sampleWorld none, "localhost:6379")]
      (NewHandler (sampleWorld none) samplePkg "localhost:6379")
      (List.Mem.tail _ (List.Mem.tail _ (List.Mem.head _)))⟩

/-- C6: the configuration of the two core subsystems and of the local cache is
fixed in the source and does not depend on `redisAddr`.  In every run, a call
of `cache.New` has a default expiration of 24 hours (86400000000000 ns) and a
cleanup interval of 10 minutes (600000000000 ns); a call of
`task.NewAsyncTask` has queue size 1000, worker size 5, timeout 20 seconds
(20000000000 ns) and an error handler that calls `internal.SentryError` with
the error it is given; a call of `websocket.NewBreaker` has max read limit
1024, max message-pool length 500 and an error handler of the same kind.  The
cache is created whenever `redisAddr` is not empty, and when the error returned
is nil all three have been created and the handler holds the values those calls
returned. -/
theorem NewHandler_configuration (w : World) (pkg : PkgVars) (redisAddr : String) :
    (∀ ttl sweep, Event.cacheNew ttl sweep ∈ (NewHandler w pkg redisAddr).trace →
      ttl = 86400000000000 ∧ sweep = 600000000000 ∧
      ttl = 24 * Hour ∧ sweep = 10 * Minute) ∧
    (∀ opts, Event.NewAsyncTask opts ∈ (NewHandler w pkg redisAddr).trace →
      opts = [task.Opt.WithQueueSizeOption 1000, task.Opt.WithWorkerSizeOption 5,
        task.Opt.WithTimeoutOption 20000000000,
        task.Opt.WithErrorHandlerOption (fun err => [SinkCall.SentryError err])]) ∧
    (∀ opts, Event.NewBreaker opts ∈ (NewHandler w pkg redisAddr).trace →
      opts = [websocket.Opt.WithMaxReadLimit 1024,
        websocket.Opt.WithMaxMessagePoolLength 500,
        websocket.Opt.WithErrorHandlerOption (fun err => [SinkCall.SentryError err])]) ∧
    (redisAddr ≠ "" →
      Event.cacheNew 86400000000000 600000000000 ∈ (NewHandler w pkg redisAddr).trace) ∧
    ((NewHandler w pkg redisAddr).err = none →
      Event.NewAsyncTask asyncTaskOpts ∈ (NewHandler w pkg redisAddr).trace ∧
      Event.NewBreaker breakerOpts ∈ (NewHandler w pkg redisAddr).trace ∧
      ∃ hd, (NewHandler w pkg redisAddr).handler = some hd ∧
        hd.LocalCache = w.cacheNew 86400000000000 600000000000 ∧
        hd.AsyncTask = (w.NewAsyncTask asyncTaskOpts).val ∧
        hd.WebSocketBreaker = (w.NewBreaker breakerOpts).val) := by
  have hfull : ∀ ev, ev ∈ (NewHandler w pkg redisAddr).trace → ev ∈ fullTrace w redisAddr := by
    intro ev hev
    by_cases h : redisAddr = ""
    · subst h
      simp [NewHandler_empty] at hev
    · rcases NewHandler_run w pkg redisAddr h with
        ⟨before, c, after, e, _, _, _, hr, _⟩ | ⟨_, hr⟩
      · rw [hr] at hev
        exact List.mem_of_mem_take hev
      · rw [hr] at hev
        exact hev
  refine ⟨?_, ?_, ?_, ?_, ?_⟩
  · intro ttl sweep hev
    have := hfull _ hev
    simp [fullTrace] at this
    simp [this, Hour, Minute, Second, Millisecond, Microsecond, Nanosecond]
  · intro opts hev
    have := hfull _ hev
    simpa [fullTrace, asyncTaskOpts] using this
  · intro opts hev
    have := hfull _ hev
    simpa [fullTrace, breakerOpts] using this
  · intro h
    rcases NewHandler_run w pkg redisAddr h with
      ⟨before, c, after, e, _, _, _, hr, _⟩ | ⟨_, hr⟩
    · rw [hr]
      simp [fullTrace, List.take_succ_cons]
    · rw [hr]
      simp [fullTrace]
  · intro herr
    by_cases h : redisAddr = ""
    · subst h
      simp [NewHandler_empty] at herr
    · rcases NewHandler_run w pkg redisAddr h with
        ⟨before, c, after, e, _, _, _, hr, _⟩ | ⟨_, hr⟩
      · rw [hr] at herr
        simp at herr
      · rw [hr]
        exact ⟨by simp [fullTrace], by simp [fullTrace], _, rfl, rfl, rfl, rfl⟩

/-- A run for C6: every constructor succeeds and the three creations are in
the trace. -/
theorem NewHandler_configuration_witness :
    "localhost:6379" ≠ "" ∧
    (NewHandler (sampleWorld none) samplePkg "localhost:6379").err = none ∧
    Event.cacheNew 86400000000000 600000000000
      ∈ (NewHandler (sampleWorld none) samplePkg "localhost:6379").trace ∧
    Event.NewAsyncTask asyncTaskOpts
      ∈ (NewHandler (sampleWorld none) samplePkg "localhost:6379").trace ∧
    Event.NewBreaker breakerOpts
      ∈ (NewHandler (sampleWorld none) samplePkg "localhost:6379").trace :=
  have hc := NewHandler_configuration (sampleWorld none) samplePkg "localhost:6379"
  have h0 : (NewHandler (sampleWorld none) samplePkg "localhost:6379").err = none := by
    decide
  ⟨by decide, h0, hc.2.2.2.1 (by decide), (hc.2.2.2.2 h0).1, (hc.2.2.2.2 h0).2.1⟩

/-- The map `init` appends for the key `k`. -/
theorem initStep_eq (acc : List (GoMap String)) (k : String) :
    initStep acc k
      = acc ++ [⟨[("name", k), ("url", "/icon/" ++ k)], by simp⟩] := by
  simp [initStep, GoMap.set, GoMap.make, GoMap.setEntries, sprintfIcon]

/-- The loop of `init` appends one map per key yielded, in the order yielded. -/
theorem foldl_initStep (acc : List (GoMap String)) (ks : List String) :
    ks.foldl initStep acc
      = acc ++ ks.map (fun k => ⟨[("name", k), ("url", "/icon/" ++ k)], by simp⟩) := by
  induction ks generalizing acc with
  | nil => simp
  | cons k ks ih => rw [List.foldl_cons, ih, initStep_eq]; simp

/-- The listing `init` builds. -/
theorem init_iconsList (GetIconsMap : GoMap badge.Icon) (rangeOrder : List String) :
    (init GetIconsMap rangeOrder).iconsList
      = rangeOrder.map (fun k => ⟨[("name", k), ("url", "/icon/" ++ k)], by simp⟩) := by
  simp [init, foldl_initStep]

/-- C3: every element of the listing is a name and url pair.  For every
catalog returned by `badge.GetIconsMap` and every order in which `range` yields
its keys, each element of `iconsList` after `init` is a map with two keys,
"name" and "url" and no other; its "name" is a key of `iconsMap` and its "url"
is "/icon/" followed by that name. -/
theorem init_listing_entries (GetIconsMap : GoMap badge.Icon) (rangeOrder : List String)
    (h : IsRangeOrder GetIconsMap rangeOrder) :
    ∀ j ∈ (init GetIconsMap rangeOrder).iconsList,
      j.len = 2 ∧ (∀ key, key ∈ j.keys ↔ key = "name" ∨ key = "url") ∧
      ∃ name, name ∈ (init GetIconsMap rangeOrder).iconsMap.keys ∧
        j.get? "name" = some name ∧ j.get? "url" = some ("/icon/" ++ name) := by
  intro j hj
  rw [init_iconsList] at hj
  simp only [List.mem_map] at hj
  obtain ⟨k, hk, rfl⟩ := hj
  refine ⟨rfl, ?_, k, ?_, ?_, ?_⟩
  · intro key
    simp [GoMap.keys]
  · exact h.subset hk
  · simp [GoMap.get?]
  · simp [GoMap.get?]

/-- The sample catalog for C3, ranged over in the order twitter, github: the
first element of the listing. -/
theorem init_listing_entries_witness :
    IsRangeOrder sampleCatalog ["twitter", "github"] ∧
    (init sampleCatalog ["twitter", "github"]).iconsList.map GoMap.entries
      = [[("name", "twitter"), ("url", "/icon/twitter")],
          [("name", "github"), ("url", "/icon/github")]] ∧
    ((GoMap.mk [("name", "twitter"), ("url", "/icon/twitter")] (by decide)).len = 2 ∧
      (∀ key, key ∈ (GoMap.mk [("name", "twitter"), ("url", "/icon/twitter")]
          (by decide)).keys ↔ key = "name" ∨ key = "url") ∧
      ∃ name, name ∈ (init sampleCatalog ["twitter", "github"]).iconsMap.keys ∧
        (GoMap.mk [("name", "twitter"), ("url", "/icon/twitter")] (by decide)).get? "name"
          = some name ∧
        (GoMap.mk [("name", "twitter"), ("url", "/icon/twitter")] (by decide)).get? "url"
          = some ("/icon/" ++ name)) :=
  ⟨List.Perm.swap _ _ _, by decide,
    init_listing_entries sampleCatalog ["twitter", "github"] (List.Perm.swap _ _ _) _
      (List.Mem.head _)⟩

/-- C4: the listing corresponds one to one to the catalog.  For every catalog
and every order in which `range` yields its keys, after `init` the length of
`iconsList` is the number of keys of `iconsMap`, every key of `iconsMap` is the
"name" of exactly one element of `iconsList`, and the names of the listing are
the keys of the catalog, rearranged. -/
theorem init_listing_one_to_one (GetIconsMap : GoMap badge.Icon)
    (rangeOrder : List String) (h : IsRangeOrder GetIconsMap rangeOrder) :
    (init GetIconsMap rangeOrder).iconsList.length
      = (init GetIconsMap rangeOrder).iconsMap.len ∧
    (∀ k ∈ (init GetIconsMap rangeOrder).iconsMap.keys,
      (init GetIconsMap rangeOrder).iconsList.countP
        (fun j => decide (nameOf j = some k)) = 1) ∧
    ((init GetIconsMap rangeOrder).iconsList.filterMap nameOf).Perm
      (init GetIconsMap rangeOrder).iconsMap.keys := by
  have hkeys : (init GetIconsMap rangeOrder).iconsMap.keys = GetIconsMap.keys := rfl
  refine ⟨?_, ?_, ?_⟩
  · rw [init_iconsList, List.length_map]
    have := h.length_eq
    simpa [GoMap.keys, GoMap.len, init] using this
  · intro k hk
    rw [hkeys] at hk
    have hcount : (init GetIconsMap rangeOrder).iconsList.countP
        (fun j => decide (nameOf j = some k)) = rangeOrder.count k := by
      rw [init_iconsList, List.countP_map, List.count]
      apply List.countP_congr
      intro x _
      simp [nameOf, GoMap.get?]
    rw [hcount, h.count_eq]
    exact List.count_eq_one_of_mem GetIconsMap.nodupKeys hk
  · rw [hkeys]
    have hall : ∀ l : List String,
        (l.map (fun k => (⟨[("name", k), ("url", "/icon/" ++ k)], by simp⟩ :
          GoMap String))).filterMap nameOf = l := by
      intro l
      induction l with
      | nil => rfl
      | cons a l ih =>
        rw [List.map_cons, List.filterMap_cons, ih]
        simp [nameOf, GoMap.get?]
    rw [init_iconsList, hall]
    exact h

/-- The sample catalog for C4, ranged over in the order twitter, github: two
elements for two keys, and the key github names one element. -/
theorem init_listing_one_to_one_witness :
    IsRangeOrder sampleCatalog ["twitter", "github"] ∧
    "github" ∈ (init sampleCatalog ["twitter", "github"]).iconsMap.keys ∧
    (init sampleCatalog ["twitter", "github"]).iconsList.length = 2 ∧
    (init sampleCatalog ["twitter", "github"]).iconsList.countP
      (fun j => decide (nameOf j = some "github")) = 1 :=
  ⟨List.Perm.swap _ _ _, by decide,
    (init_listing_one_to_one sampleCatalog ["twitter", "github"] (List.Perm.swap _ _ _)).1,
    (init_listing_one_to_one sampleCatalog ["twitter", "github"]
      (List.Perm.swap _ _ _)).2.1 "github" (by decide)⟩

end HitCounter
